import Mathlib

/-!
# Verification of the lead-scraper search endpoint

A shallow embedding of `src/pages/api/search.ts`: the location resolver
(static fallback table plus geocoding), the category expander, the search
orchestrator loop over provider types, the result filter, the deduplicator
and the response assembler, together with theorems checking the documented
properties of each stage.

External HTTP collaborators (the geocoding provider and the places
provider) are modelled as function parameters; the calls the handler
issues to them are recorded in traces so that call-counting properties
can be stated.
-/

namespace LeadScraper

/-- JavaScript `haystack.includes(needle)`: substring containment. -/
def jsIncludes (s sub : String) : Bool :=
  decide (sub.data <:+: s.data)

/-- JavaScript `s.toLowerCase()` (character-wise lowering, which is all
the source's ASCII data exercises). -/
def strToLower (s : String) : String :=
  ⟨s.data.map Char.toLower⟩

/-- JavaScript `s.trim()`: strip leading and trailing whitespace. -/
def strTrim (s : String) : String :=
  ⟨((s.data.dropWhile Char.isWhitespace).reverse.dropWhile Char.isWhitespace).reverse⟩

/-- JavaScript `Math.round` on an exact rational: round half toward
positive infinity. -/
def jsRound (q : ℚ) : ℤ :=
  Rat.floor (q + 1/2)

/-- Truthiness of an optional string field, as JavaScript evaluates
`if (field)`: present and non-empty. -/
def jsTruthy : Option String → Bool
  | none => false
  | some s => s != ""

/-- A coordinate pair (`lat`/`lng`).  The source works with JavaScript
numbers; we embed them as rationals, which represent every decimal
literal in the file exactly. -/
structure Coord where
  lat : ℚ
  lng : ℚ
deriving DecidableEq, Repr

/-- One raw place record returned by the places provider
(the `PlacesResult.places` element shape of the source). -/
structure Place where
  displayName : String
  formattedAddress : String
  websiteUri : Option String := none
  nationalPhoneNumber : Option String := none
  rating : Option ℚ := none
  latitude : ℚ := 0
  longitude : ℚ := 0
  types : Option (List String) := none
deriving DecidableEq, Repr

/-- The `Business` output entity of the source. -/
structure Business where
  name : String
  phone : Option String
  address : String
  rating : Option ℚ
  lat : ℚ
  lng : ℚ
  type : String
deriving DecidableEq, Repr

/-- The `SERVICE_CATEGORIES` table: the fixed category → provider-types mapping. -/
def SERVICE_CATEGORIES : List (String × List String) :=
  [("electrician", ["electrician"]),
   ("hvac", ["electrician", "plumber"]),
   ("plumber", ["plumber"]),
   ("roofer", ["electrician", "painter"]),
   ("contractor", ["electrician", "plumber", "painter"]),
   ("painter", ["painter"]),
   ("landscaper", ["painter", "electrician"]),
   ("auto_repair", ["car_repair"])]

/-- The lookup `SERVICE_CATEGORIES[category]`: a JavaScript object access,
`none` when the key is absent. -/
def googleTypesFor (category : String) : Option (List String) :=
  (SERVICE_CATEGORIES.find? (fun p => p.1 == category)).map Prod.snd

/-- The `SERVICE_KEYWORDS` list, duplicates included exactly as in the source. -/
def SERVICE_KEYWORDS : List String :=
  ["electric", "hvac", "plumb", "roof", "repair", "contract",
   "heat", "cool", "paint", "landscap", "service", "maintenance",
   "wire", "electrical", "heating", "cooling", "plumbing", "roofing",
   "contractor", "contractors", "construction", "install", "installation",
   "hvac", "heating", "cooling", "air", "conditioning", "furnace",
   "plumbing", "plumber", "pipe", "drain", "sewer", "water",
   "roofing", "roofer", "roof", "shingle", "gutter", "siding",
   "painting", "painter", "paint", "interior", "exterior",
   "landscaping", "landscaper", "lawn", "yard", "garden", "tree",
   "auto", "automotive", "mechanic", "garage", "tire", "brake",
   "handyman", "handy", "fix", "repair", "maintenance", "service"]

/-- The filter's `name`: `place.displayName?.text?.toLowerCase() || ''`. -/
def nameOf (place : Place) : String :=
  strToLower place.displayName

/-- The filter's `types`: `place.types?.join(' ').toLowerCase() || ''`. -/
def typesStrOf (place : Place) : String :=
  strToLower (String.intercalate " " (place.types.getD []))

/-- The filter's `searchText`: `name ++ ' ' ++ types`. -/
def searchTextOf (place : Place) : String :=
  nameOf place ++ " " ++ typesStrOf place

/-- The keyword signal: `SERVICE_KEYWORDS.some(keyword => searchText.includes(keyword))`. -/
def hasServiceKeyword (place : Place) : Bool :=
  SERVICE_KEYWORDS.any (fun keyword => jsIncludes (searchTextOf place) keyword)

/-- The recognized-type signal of the filter predicate (substring checks
against the joined, lower-cased types string, as the source performs). -/
def hasServiceType (place : Place) : Bool :=
  jsIncludes (typesStrOf place) "electrician" || jsIncludes (typesStrOf place) "plumber" ||
  jsIncludes (typesStrOf place) "painter" || jsIncludes (typesStrOf place) "car_repair" ||
  jsIncludes (typesStrOf place) "establishment" || jsIncludes (typesStrOf place) "point_of_interest"

/-- The business-suffix signal of the filter predicate. -/
def hasBusinessSuffix (place : Place) : Bool :=
  jsIncludes (nameOf place) "llc" || jsIncludes (nameOf place) "inc" ||
  jsIncludes (nameOf place) "corp" || jsIncludes (nameOf place) "company" ||
  jsIncludes (nameOf place) "services" || jsIncludes (nameOf place) "service"

/-- The Result Filter predicate (`typeBusinesses` filter callback):
discard when a website URI is truthy, otherwise keep when any of the
three signals holds. -/
def keepPlace (place : Place) : Bool :=
  if jsTruthy place.websiteUri then false
  else hasServiceKeyword place || hasServiceType place || hasBusinessSuffix place

/-- The projection `.map(place => ({...}))` of a kept place into a
`Business`, tagged with the user category being processed. -/
def placeToBusiness (category : String) (place : Place) : Business :=
  { name := place.displayName
    phone := place.nationalPhoneNumber
    address := place.formattedAddress
    rating := place.rating
    lat := place.latitude
    lng := place.longitude
    type := category }

/-- The `locationFallbacks` table: the static city/state → coordinates table. -/
def locationFallbacks : List (String × Coord) :=
  [("detroit, mi", ⟨42.3314, -83.0458⟩),
   ("chicago, il", ⟨41.8781, -87.6298⟩),
   ("new york, ny", ⟨40.7128, -74.0060⟩),
   ("los angeles, ca", ⟨34.0522, -118.2437⟩),
   ("miami, fl", ⟨25.7617, -80.1918⟩),
   ("traverse city, mi", ⟨44.7631, -85.6206⟩),
   ("cadillac, mi", ⟨44.2519, -85.4012⟩),
   ("grand rapids, mi", ⟨42.9634, -85.6681⟩),
   ("kalamazoo, mi", ⟨42.2917, -85.5872⟩),
   ("lansing, mi", ⟨42.7325, -84.5555⟩)]

/-- The lookup `locationFallbacks[locationKey]`: a JavaScript object access. -/
def lookupFallback (key : String) : Option Coord :=
  (locationFallbacks.find? (fun p => p.1 == key)).map Prod.snd

/-- The body of one `places:searchNearby` request, as the handler builds
it: one included type, a result cap of 20, and a circular location
restriction. -/
structure PlacesCall where
  includedTypes : List String
  maxResultCount : Nat
  center : Coord
  radius : ℤ
deriving DecidableEq, Repr

/-- A places-provider response: the HTTP success flag and the decoded
body's optional `places` array. -/
structure PlacesResponse where
  ok : Bool
  places : Option (List Place) := none
deriving DecidableEq, Repr

/-- The mutable state of the handler's search loop: `allBusinesses` and
`totalSearched` from the source, plus the trace of issued provider
calls. -/
structure Accum where
  allBusinesses : List Business
  totalSearched : Nat
  calls : List PlacesCall
deriving DecidableEq, Repr

/-- The request the inner loop issues for one provider type. -/
def mkCall (center : Coord) (radiusMeters : ℤ) (googleType : String) : PlacesCall :=
  { includedTypes := [googleType], maxResultCount := 20, center := center, radius := radiusMeters }

/-- One iteration of the inner `for (const googleType of googleTypes)`
loop: issue the call; on non-success log-and-`continue` (the call
contributes nothing); on success add the raw count to `totalSearched`
and the filtered, mapped businesses to `allBusinesses`. -/
def stepType (provider : PlacesCall → PlacesResponse) (center : Coord) (radiusMeters : ℤ)
    (category : String) (acc : Accum) (googleType : String) : Accum :=
  let call := mkCall center radiusMeters googleType
  let resp := provider call
  if !resp.ok then
    { acc with calls := acc.calls ++ [call] }
  else
    let typeBusinesses :=
      ((resp.places.map (fun ps => (ps.filter keepPlace).map (placeToBusiness category))).getD [])
    { allBusinesses := acc.allBusinesses ++ typeBusinesses
      totalSearched := acc.totalSearched + ((resp.places.map List.length).getD 0)
      calls := acc.calls ++ [call] }

/-- One iteration of the outer `for (const category of selectedCategories)`
loop: an unrecognized (or empty) expansion is skipped with `continue`,
otherwise each expanded provider type is searched in order. -/
def stepCategory (provider : PlacesCall → PlacesResponse) (center : Coord) (radiusMeters : ℤ)
    (acc : Accum) (category : String) : Accum :=
  match googleTypesFor category with
  | none => acc
  | some googleTypes =>
    if googleTypes.isEmpty then acc
    else googleTypes.foldl (stepType provider center radiusMeters category) acc

/-- The whole search loop, from the empty accumulator. -/
def runCategories (provider : PlacesCall → PlacesResponse) (center : Coord) (radiusMeters : ℤ)
    (selectedCategories : List String) : Accum :=
  selectedCategories.foldl (stepCategory provider center radiusMeters) ⟨[], 0, []⟩

/-- Whether two businesses agree on the deduplication key:
`b.name === business.name && b.address === business.address`. -/
def sameBiz (a b : Business) : Bool :=
  a.name == b.name && a.address == b.address

/-- JavaScript `Array.prototype.filter` with the `(element, index, array)` callback
of the source's deduplication step, desugared to an index-carrying
recursion: `orig` is the whole array (`self`), `i` the index of the head
of the remaining suffix. -/
def uniqueAux (orig : List Business) : Nat → List Business → List Business
  | _, [] => []
  | i, b :: rest =>
    if i == orig.findIdx (fun c => sameBiz c b) then b :: uniqueAux orig (i + 1) rest
    else uniqueAux orig (i + 1) rest

/-- The Deduplicator as the source writes it:
`allBusinesses.filter((business, index, self) => index === self.findIndex(...))`. -/
def uniqueBusinesses (l : List Business) : List Business :=
  uniqueAux l 0 l

/-- The successful response payload: the deduplicated business list and
the `summary` object (`debug` omitted; its fields are projections of
data already present here). -/
structure SearchResponse where
  businesses : List Business
  totalSearched : Nat
  withoutWebsites : Nat
  city : String
  state : String
  location : String
  radiusMiles : ℚ
  categories : List String
deriving DecidableEq, Repr

/-- Steps 2–3 of the handler, once coordinates are resolved: run the
category loop, deduplicate, and assemble the response.  Also returns the
trace of places-provider calls. -/
def searchFrom (provider : PlacesCall → PlacesResponse) (center : Coord)
    (city state : String) (radiusMiles : ℚ) (selectedCategories : List String) :
    SearchResponse × List PlacesCall :=
  let radiusMeters := jsRound (radiusMiles * 1609)
  let acc := runCategories provider center radiusMeters selectedCategories
  let uniq := uniqueBusinesses acc.allBusinesses
  ({ businesses := uniq
     totalSearched := acc.totalSearched
     withoutWebsites := uniq.length
     city := city
     state := state
     location := city ++ ", " ++ state
     radiusMiles := radiusMiles
     categories := selectedCategories }, acc.calls)

/-- The handler's terminal HTTP outcomes relevant to the claims:
HTTP 200 with a payload, or HTTP 400 when the location is unresolved. -/
inductive HandlerOutcome where
  | success (resp : SearchResponse)
  | locationNotFound (error : String)
deriving DecidableEq, Repr

/-- The HTTP status code of an outcome. -/
def HandlerOutcome.status : HandlerOutcome → Nat
  | .success _ => 200
  | .locationNotFound _ => 400

/-- Whether an outcome is the HTTP 200 one. -/
def HandlerOutcome.isSuccess : HandlerOutcome → Bool
  | .success _ => true
  | .locationNotFound _ => false

/-- The HTTP 400 error body for an unresolved location, verbatim. -/
def notFoundMessage (fullLocation : String) : String :=
  "Location \"" ++ fullLocation ++
    "\" not found. Please try: Detroit, MI, Chicago, IL, New York, NY, Los Angeles, CA, Miami, FL, or Traverse City, MI"

/-- A full run of the handler: the outcome plus the traces of geocoding
and places-provider calls it issued. -/
structure HandlerRun where
  outcome : HandlerOutcome
  geocodeCalls : List String
  placesCalls : List PlacesCall
deriving DecidableEq, Repr

/-- The handler, parameterized by its two external collaborators.  The
geocoding provider maps an address to the optional `results` array of
candidate coordinates (`none` models a body with no `results` field). -/
def handler (geocode : String → Option (List Coord)) (provider : PlacesCall → PlacesResponse)
    (city state : String) (radiusMiles : ℚ) (selectedCategories : List String) : HandlerRun :=
  let fullLocation := city ++ ", " ++ state
  let locationKey := strTrim (strToLower fullLocation)
  match lookupFallback locationKey with
  | some coord =>
    let r := searchFrom provider coord city state radiusMiles selectedCategories
    ⟨.success r.1, [], r.2⟩
  | none =>
    match geocode fullLocation with
    | none => ⟨.locationNotFound (notFoundMessage fullLocation), [fullLocation], []⟩
    | some [] => ⟨.locationNotFound (notFoundMessage fullLocation), [fullLocation], []⟩
    | some (coord :: _) =>
      let r := searchFrom provider coord city state radiusMiles selectedCategories
      ⟨.success r.1, [fullLocation], r.2⟩

/-! ## The deduplicator, compared against the spec's contract -/

/-- Modelled from the spec's Deduplicator contract (section 4.5): return
a list with at most one entry per distinct (name, address) pair, keeping
the first occurrence and preserving first-seen order. -/
def firstOccurrences : List Business → List Business
  | [] => []
  | b :: rest => b :: firstOccurrences (rest.filter (fun c => !(sameBiz b c)))
termination_by l => l.length
decreasing_by
  simpa using Nat.lt_succ_of_le (List.length_filter_le _ rest)

/-! ## Accumulator algebra for the search loop -/

/-- Componentwise combination of two loop states. -/
def Accum.merge (x y : Accum) : Accum :=
  ⟨x.allBusinesses ++ y.allBusinesses, x.totalSearched + y.totalSearched, x.calls ++ y.calls⟩

/-- The initial loop state. -/
def Accum.init : Accum := ⟨[], 0, []⟩

/-! ## Per-call accounting -/

/-- What one issued provider call contributes to `totalSearched`: the raw
count of returned places when the call succeeds, zero otherwise. -/
def callGain (provider : PlacesCall → PlacesResponse) (call : PlacesCall) : Nat :=
  if (provider call).ok then ((provider call).places.map List.length).getD 0 else 0

/-! ## Concrete fixtures used by witnesses and counterexamples -/

/-- A websiteless electrician place used as a canned provider result. -/
def samplePlace : Place :=
  { displayName := "Acme Service LLC", formattedAddress := "123 Main St",
    nationalPhoneNumber := some "555-0100", types := some ["electrician"] }

/-- A place carrying a non-empty website URI. -/
def websitePlace : Place :=
  { displayName := "Joes Plumbing", formattedAddress := "9 Oak St",
    websiteUri := some "https://joes.example", types := some ["plumber"] }

/-- A provider that always succeeds with one websiteless place. -/
def constProvider : PlacesCall → PlacesResponse :=
  fun _ => { ok := true, places := some [samplePlace] }

/-- A provider whose every call fails. -/
def failProvider : PlacesCall → PlacesResponse :=
  fun _ => { ok := false }

/-- A geocoder that never finds anything. -/
def noGeocode : String → Option (List Coord) := fun _ => none

/-- Projection used to tell two handler runs apart by their reported
`totalSearched`. -/
def runTotalSearched (r : HandlerRun) : Nat :=
  match r.outcome with
  | .success resp => resp.totalSearched
  | .locationNotFound _ => 0

def bizA : Business := placeToBusiness "electrician" samplePlace

/-- The model `jsRound` agrees with Mathlib's `round`, which also rounds halves up. -/
theorem jsRound_eq_round (q : ℚ) : jsRound q = round q := by
  rw [round_eq, jsRound, Rat.floor_def', Rat.floor_def]

theorem firstOccurrences_nil : firstOccurrences [] = [] := by
  rw [firstOccurrences]

theorem firstOccurrences_cons (b : Business) (rest : List Business) :
    firstOccurrences (b :: rest) =
      b :: firstOccurrences (rest.filter (fun c => !(sameBiz b c))) := by
  rw [firstOccurrences]

theorem sameBiz_iff {a b : Business} :
    sameBiz a b = true ↔ a.name = b.name ∧ a.address = b.address := by
  simp [sameBiz]

theorem sameBiz_refl (a : Business) : sameBiz a a = true := by
  simp [sameBiz]

theorem sameBiz_trans {a b c : Business} (h₁ : sameBiz a b = true)
    (h₂ : sameBiz a c = true) : sameBiz b c = true := by
  rw [sameBiz_iff] at h₁ h₂ ⊢
  exact ⟨h₁.1 ▸ h₂.1, h₁.2 ▸ h₂.2⟩

theorem uniqueAux_shift (a : Business) (t : List Business) :
    ∀ (s : List Business) (i : Nat),
      uniqueAux (a :: t) (i + 1) s = (uniqueAux t i s).filter (fun e => !(sameBiz a e)) := by
  intro s
  induction s with
  | nil => intro i; rfl
  | cons b rest ih =>
    intro i
    rw [uniqueAux, uniqueAux, List.findIdx_cons]
    cases h : sameBiz a b with
    | true =>
      simp only [cond_true]
      split_ifs with ha hb hc
      · exact absurd ha (by simp)
      · exact absurd ha (by simp)
      · rw [List.filter_cons_of_neg (by simp [h])]
        exact ih (i + 1)
      · exact ih (i + 1)
    | false =>
      simp only [cond_false]
      split_ifs with ha hb hc
      · rw [List.filter_cons_of_pos (by simp [h])]
        exact congrArg (List.cons b) (ih (i + 1))
      · rw [beq_iff_eq] at ha hb
        omega
      · rw [beq_iff_eq] at ha hc
        omega
      · exact ih (i + 1)

theorem uniqueBusinesses_nil : uniqueBusinesses [] = [] := rfl

theorem uniqueBusinesses_cons (a : Business) (t : List Business) :
    uniqueBusinesses (a :: t) =
      a :: (uniqueBusinesses t).filter (fun e => !(sameBiz a e)) := by
  rw [uniqueBusinesses, uniqueAux, List.findIdx_cons, sameBiz_refl]
  rw [show (0 == bif true then 0 else List.findIdx (fun c => sameBiz c a) t + 1) = true from rfl]
  rw [if_pos rfl, show (0 : Nat) + 1 = 0 + 1 from rfl, uniqueAux_shift, uniqueBusinesses]

theorem firstOccurrences_filter_comm (l : List Business) :
    ∀ a : Business,
      (firstOccurrences l).filter (fun c => !(sameBiz a c)) =
        firstOccurrences (l.filter (fun c => !(sameBiz a c))) := by
  induction l using firstOccurrences.induct with
  | case1 => intro a; rw [firstOccurrences_nil, List.filter_nil, firstOccurrences_nil]
  | case2 b rest ih =>
    intro a
    rw [firstOccurrences_cons]
    cases h : sameBiz a b with
    | false =>
      rw [List.filter_cons_of_pos (by simp [h]), List.filter_cons_of_pos (by simp [h]),
        firstOccurrences_cons, ih a, List.filter_filter, List.filter_filter]
      congr 1
      apply congrArg
      apply List.filter_congr
      intro x _
      rw [Bool.and_comm]
    | true =>
      rw [List.filter_cons_of_neg (by simp [h]), List.filter_cons_of_neg (by simp [h]), ih a,
        List.filter_filter]
      congr 1
      apply List.filter_congr
      intro x _
      cases hax : sameBiz a x with
      | true =>
        have : sameBiz b x = true := sameBiz_trans h hax
        simp [this]
      | false =>
        cases hbx : sameBiz b x with
        | true =>
          have : sameBiz a x = true := by
            rw [sameBiz_iff] at h hbx ⊢
            exact ⟨h.1.trans hbx.1, h.2.trans hbx.2⟩
          rw [this] at hax
          exact absurd hax (by simp)
        | false => simp

theorem uniqueBusinesses_eq_aux :
    ∀ (n : Nat) (l : List Business), l.length ≤ n →
      uniqueBusinesses l = firstOccurrences l := by
  intro n
  induction n with
  | zero =>
    intro l h
    rw [List.length_eq_zero.mp (Nat.le_zero.mp h), uniqueBusinesses_nil, firstOccurrences_nil]
  | succ n ih =>
    intro l h
    match l with
    | [] => rw [uniqueBusinesses_nil, firstOccurrences_nil]
    | a :: t =>
      rw [uniqueBusinesses_cons, firstOccurrences_cons,
        ih t (Nat.le_of_succ_le_succ (by simpa using h)), firstOccurrences_filter_comm]

/-- The source's index-based deduplication filter computes exactly the
spec's first-occurrence-per-key function. -/
theorem uniqueBusinesses_eq_firstOccurrences (l : List Business) :
    uniqueBusinesses l = firstOccurrences l :=
  uniqueBusinesses_eq_aux l.length l (Nat.le_refl _)

theorem firstOccurrences_sublist (l : List Business) :
    (firstOccurrences l).Sublist l := by
  induction l using firstOccurrences.induct with
  | case1 => rw [firstOccurrences_nil]
  | case2 b rest ih =>
    rw [firstOccurrences_cons]
    exact (ih.trans (List.filter_sublist rest)).cons₂ b

theorem firstOccurrences_pairwise (l : List Business) :
    (firstOccurrences l).Pairwise (fun a b => sameBiz a b = false) := by
  induction l using firstOccurrences.induct with
  | case1 => rw [firstOccurrences_nil]; exact List.Pairwise.nil
  | case2 b rest ih =>
    rw [firstOccurrences_cons, List.pairwise_cons]
    refine ⟨fun c hc => ?_, ih⟩
    have := (firstOccurrences_sublist _).subset hc
    rw [List.mem_filter] at this
    simpa using this.2

theorem firstOccurrences_covers (l : List Business) :
    ∀ b ∈ l, ∃ c ∈ firstOccurrences l, sameBiz c b = true := by
  induction l using firstOccurrences.induct with
  | case1 => intro b hb; exact absurd hb (List.not_mem_nil b)
  | case2 a rest ih =>
    intro b hb
    rw [firstOccurrences_cons]
    rcases List.mem_cons.mp hb with rfl | hmem
    · exact ⟨b, List.mem_cons_self _ _, sameBiz_refl b⟩
    · cases h : sameBiz a b with
      | true => exact ⟨a, List.mem_cons_self _ _, h⟩
      | false =>
        obtain ⟨c, hc, hcb⟩ := ih b (List.mem_filter.mpr ⟨hmem, by simp [h]⟩)
        exact ⟨c, List.mem_cons_of_mem _ hc, hcb⟩

theorem sameBiz_trans_chain {a b c : Business} (h₁ : sameBiz a b = true)
    (h₂ : sameBiz b c = true) : sameBiz a c = true := by
  rw [sameBiz_iff] at h₁ h₂ ⊢
  exact ⟨h₁.1.trans h₂.1, h₁.2.trans h₂.2⟩

theorem firstOccurrences_append (x : List Business) :
    ∀ y : List Business,
      firstOccurrences (x ++ y) =
        firstOccurrences x ++
          firstOccurrences (y.filter (fun e => !(x.any (fun a => sameBiz a e)))) := by
  induction x using firstOccurrences.induct with
  | case1 =>
    intro y
    rw [List.nil_append, firstOccurrences_nil, List.nil_append]
    apply congrArg
    symm
    apply List.filter_eq_self.mpr
    intro e _
    simp
  | case2 h t ih =>
    intro y
    rw [List.cons_append, firstOccurrences_cons, List.filter_append, ih, firstOccurrences_cons,
      List.cons_append]
    apply congrArg (List.cons h)
    apply congrArg
    apply congrArg
    rw [List.filter_filter]
    apply List.filter_congr
    intro e _
    cases hph : sameBiz h e with
    | true => simp [hph]
    | false =>
      simp only [List.any_cons, hph, Bool.false_or, Bool.not_not, Bool.not_false, Bool.and_true]
      have : ((t.filter (fun c => !(sameBiz h c))).any (fun a => sameBiz a e))
          = (t.any (fun a => sameBiz a e)) := by
        rw [Bool.eq_iff_iff, List.any_eq_true, List.any_eq_true]
        constructor
        · rintro ⟨a, haf, hae⟩
          exact ⟨a, (List.mem_filter.mp haf).1, hae⟩
        · rintro ⟨a, hat, hae⟩
          refine ⟨a, List.mem_filter.mpr ⟨hat, ?_⟩, hae⟩
          cases hha : sameBiz h a with
          | true => exact absurd (sameBiz_trans_chain hha hae) (by simp [hph])
          | false => simp
      rw [this]

theorem firstOccurrences_filter_self (l : List Business) :
    l.filter (fun e => !(l.any (fun a => sameBiz a e))) = [] := by
  apply List.filter_eq_nil_iff.mpr
  intro e he
  have : l.any (fun a => sameBiz a e) = true := List.any_eq_true.mpr ⟨e, he, sameBiz_refl e⟩
  simp [this]

/-- Listing a block of businesses twice in a row changes nothing about
the first-occurrences list. -/
theorem firstOccurrences_dup (P B Q : List Business) :
    firstOccurrences (P ++ (B ++ (B ++ Q))) = firstOccurrences (P ++ (B ++ Q))  := by
  rw [firstOccurrences_append, firstOccurrences_append]
  apply congrArg
  rw [List.filter_append, List.filter_append]
  rw [firstOccurrences_append, firstOccurrences_append]
  apply congrArg
  rw [List.filter_append, firstOccurrences_filter_self, List.nil_append]

theorem Accum.merge_init (x : Accum) : x.merge Accum.init = x := by
  simp [Accum.merge, Accum.init]

theorem Accum.init_merge (x : Accum) : Accum.init.merge x = x := by
  simp [Accum.merge, Accum.init]

theorem Accum.merge_assoc (x y z : Accum) :
    (x.merge y).merge z = x.merge (y.merge z) := by
  simp [Accum.merge, List.append_assoc, Nat.add_assoc]

theorem stepType_merge (provider : PlacesCall → PlacesResponse) (center : Coord)
    (radiusMeters : ℤ) (category : String) (x y : Accum) (googleType : String) :
    stepType provider center radiusMeters category (x.merge y) googleType =
      x.merge (stepType provider center radiusMeters category y googleType) := by
  rw [stepType, stepType]
  cases h : (provider (mkCall center radiusMeters googleType)).ok with
  | false => simp [h, Accum.merge]
  | true => simp [h, Accum.merge, List.append_assoc, Nat.add_assoc]

theorem foldl_stepType_merge (provider : PlacesCall → PlacesResponse) (center : Coord)
    (radiusMeters : ℤ) (category : String) (googleTypes : List String) :
    ∀ (x y : Accum),
      googleTypes.foldl (stepType provider center radiusMeters category) (x.merge y) =
        x.merge (googleTypes.foldl (stepType provider center radiusMeters category) y) := by
  induction googleTypes with
  | nil => intro x y; rfl
  | cons gt rest ih =>
    intro x y
    rw [List.foldl_cons, List.foldl_cons, stepType_merge, ih]

theorem stepCategory_merge (provider : PlacesCall → PlacesResponse) (center : Coord)
    (radiusMeters : ℤ) (x y : Accum) (category : String) :
    stepCategory provider center radiusMeters (x.merge y) category =
      x.merge (stepCategory provider center radiusMeters y category) := by
  rw [stepCategory, stepCategory]
  cases hm : googleTypesFor category with
  | none => rfl
  | some googleTypes =>
    cases he : googleTypes.isEmpty with
    | true => simp [he]
    | false => simp [he, foldl_stepType_merge]

theorem foldl_stepCategory_merge (provider : PlacesCall → PlacesResponse) (center : Coord)
    (radiusMeters : ℤ) (cats : List String) :
    ∀ (x y : Accum),
      cats.foldl (stepCategory provider center radiusMeters) (x.merge y) =
        x.merge (cats.foldl (stepCategory provider center radiusMeters) y) := by
  induction cats with
  | nil => intro x y; rfl
  | cons c rest ih =>
    intro x y
    rw [List.foldl_cons, List.foldl_cons, stepCategory_merge, ih]

/-- The search loop distributes over concatenation of category lists. -/
theorem runCategories_append (provider : PlacesCall → PlacesResponse) (center : Coord)
    (radiusMeters : ℤ) (l₁ l₂ : List String) :
    runCategories provider center radiusMeters (l₁ ++ l₂) =
      (runCategories provider center radiusMeters l₁).merge
        (runCategories provider center radiusMeters l₂) := by
  rw [runCategories, List.foldl_append]
  have h1 : List.foldl (stepCategory provider center radiusMeters) Accum.init l₁
      = runCategories provider center radiusMeters l₁ := rfl
  rw [show (⟨[], 0, []⟩ : Accum) = Accum.init from rfl, h1,
    show runCategories provider center radiusMeters l₁
        = (runCategories provider center radiusMeters l₁).merge Accum.init from
      (Accum.merge_init _).symm,
    foldl_stepCategory_merge, Accum.merge_init]
  rfl

theorem runCategories_singleton (provider : PlacesCall → PlacesResponse) (center : Coord)
    (radiusMeters : ℤ) (category : String) :
    runCategories provider center radiusMeters [category] =
      stepCategory provider center radiusMeters Accum.init category := rfl

theorem stepType_totalInv (provider : PlacesCall → PlacesResponse) (center : Coord)
    (radiusMeters : ℤ) (category : String) (acc : Accum) (googleType : String)
    (h : acc.totalSearched = (acc.calls.map (callGain provider)).sum) :
    (stepType provider center radiusMeters category acc googleType).totalSearched =
      ((stepType provider center radiusMeters category acc googleType).calls.map
        (callGain provider)).sum := by
  rw [stepType]
  cases hok : (provider (mkCall center radiusMeters googleType)).ok with
  | false => simp [h, callGain, hok]
  | true => simp [h, callGain, hok]

theorem foldl_stepType_totalInv (provider : PlacesCall → PlacesResponse) (center : Coord)
    (radiusMeters : ℤ) (category : String) (googleTypes : List String) :
    ∀ acc : Accum, acc.totalSearched = (acc.calls.map (callGain provider)).sum →
      (googleTypes.foldl (stepType provider center radiusMeters category) acc).totalSearched =
        ((googleTypes.foldl (stepType provider center radiusMeters category) acc).calls.map
          (callGain provider)).sum := by
  induction googleTypes with
  | nil => intro acc h; exact h
  | cons gt rest ih =>
    intro acc h
    rw [List.foldl_cons]
    exact ih _ (stepType_totalInv provider center radiusMeters category acc gt h)

theorem stepCategory_totalInv (provider : PlacesCall → PlacesResponse) (center : Coord)
    (radiusMeters : ℤ) (acc : Accum) (category : String)
    (h : acc.totalSearched = (acc.calls.map (callGain provider)).sum) :
    (stepCategory provider center radiusMeters acc category).totalSearched =
      ((stepCategory provider center radiusMeters acc category).calls.map
        (callGain provider)).sum := by
  rw [stepCategory]
  cases hm : googleTypesFor category with
  | none => exact h
  | some googleTypes =>
    cases he : googleTypes.isEmpty with
    | true => simpa [he] using h
    | false =>
      simpa [he] using foldl_stepType_totalInv provider center radiusMeters category
        googleTypes acc h

theorem runCategories_totalInv (provider : PlacesCall → PlacesResponse) (center : Coord)
    (radiusMeters : ℤ) (cats : List String) :
    (runCategories provider center radiusMeters cats).totalSearched =
      ((runCategories provider center radiusMeters cats).calls.map (callGain provider)).sum := by
  rw [runCategories]
  generalize hinit : (⟨[], 0, []⟩ : Accum) = acc0
  have h0 : acc0.totalSearched = (acc0.calls.map (callGain provider)).sum := by
    rw [← hinit]; rfl
  clear hinit
  induction cats generalizing acc0 with
  | nil => exact h0
  | cons c rest ih =>
    rw [List.foldl_cons]
    exact ih _ (stepCategory_totalInv provider center radiusMeters acc0 c h0)

theorem stepType_lenInv (provider : PlacesCall → PlacesResponse) (center : Coord)
    (radiusMeters : ℤ) (category : String) (acc : Accum) (googleType : String)
    (h : acc.allBusinesses.length ≤ acc.totalSearched) :
    (stepType provider center radiusMeters category acc googleType).allBusinesses.length ≤
      (stepType provider center radiusMeters category acc googleType).totalSearched := by
  rw [stepType]
  cases hok : (provider (mkCall center radiusMeters googleType)).ok with
  | false => simpa using h
  | true =>
    cases hpl : (provider (mkCall center radiusMeters googleType)).places with
    | none => simpa [hpl] using h
    | some ps =>
      simp only [hpl, Bool.not_true, Bool.false_eq_true, if_false]
      simp only [Option.map, Option.getD, List.length_append, List.length_map]
      exact Nat.add_le_add h (List.length_filter_le _ ps)

theorem foldl_stepType_lenInv (provider : PlacesCall → PlacesResponse) (center : Coord)
    (radiusMeters : ℤ) (category : String) (googleTypes : List String) :
    ∀ acc : Accum, acc.allBusinesses.length ≤ acc.totalSearched →
      (googleTypes.foldl (stepType provider center radiusMeters category) acc).allBusinesses.length ≤
        (googleTypes.foldl (stepType provider center radiusMeters category) acc).totalSearched := by
  induction googleTypes with
  | nil => intro acc h; exact h
  | cons gt rest ih =>
    intro acc h
    rw [List.foldl_cons]
    exact ih _ (stepType_lenInv provider center radiusMeters category acc gt h)

theorem stepCategory_lenInv (provider : PlacesCall → PlacesResponse) (center : Coord)
    (radiusMeters : ℤ) (acc : Accum) (category : String)
    (h : acc.allBusinesses.length ≤ acc.totalSearched) :
    (stepCategory provider center radiusMeters acc category).allBusinesses.length ≤
      (stepCategory provider center radiusMeters acc category).totalSearched := by
  rw [stepCategory]
  cases hm : googleTypesFor category with
  | none => exact h
  | some googleTypes =>
    cases he : googleTypes.isEmpty with
    | true => simpa [he] using h
    | false =>
      simpa [he] using foldl_stepType_lenInv provider center radiusMeters category
        googleTypes acc h

theorem runCategories_lenInv (provider : PlacesCall → PlacesResponse) (center : Coord)
    (radiusMeters : ℤ) (cats : List String) :
    (runCategories provider center radiusMeters cats).allBusinesses.length ≤
      (runCategories provider center radiusMeters cats).totalSearched := by
  rw [runCategories]
  generalize hinit : (⟨[], 0, []⟩ : Accum) = acc0
  have h0 : acc0.allBusinesses.length ≤ acc0.totalSearched := by
    rw [← hinit]
    exact Nat.le_refl 0
  clear hinit
  induction cats generalizing acc0 with
  | nil => exact h0
  | cons c rest ih =>
    rw [List.foldl_cons]
    exact ih _ (stepCategory_lenInv provider center radiusMeters acc0 c h0)

theorem stepType_radiusInv (provider : PlacesCall → PlacesResponse) (center : Coord)
    (radiusMeters : ℤ) (category : String) (acc : Accum) (googleType : String)
    (h : ∀ call ∈ acc.calls, call.radius = radiusMeters) :
    ∀ call ∈ (stepType provider center radiusMeters category acc googleType).calls,
      call.radius = radiusMeters := by
  rw [stepType]
  cases hok : (provider (mkCall center radiusMeters googleType)).ok with
  | false =>
    simp only [hok, Bool.not_false, if_true]
    intro call hc
    rcases List.mem_append.mp hc with hmem | hmem
    · exact h call hmem
    · rw [List.mem_singleton.mp hmem]; rfl
  | true =>
    simp only [hok, Bool.not_true, Bool.false_eq_true, if_false]
    intro call hc
    rcases List.mem_append.mp hc with hmem | hmem
    · exact h call hmem
    · rw [List.mem_singleton.mp hmem]; rfl

theorem foldl_stepType_radiusInv (provider : PlacesCall → PlacesResponse) (center : Coord)
    (radiusMeters : ℤ) (category : String) (googleTypes : List String) :
    ∀ acc : Accum, (∀ call ∈ acc.calls, call.radius = radiusMeters) →
      ∀ call ∈ (googleTypes.foldl (stepType provider center radiusMeters category) acc).calls,
        call.radius = radiusMeters := by
  induction googleTypes with
  | nil => intro acc h; exact h
  | cons gt rest ih =>
    intro acc h
    rw [List.foldl_cons]
    exact ih _ (stepType_radiusInv provider center radiusMeters category acc gt h)

theorem stepCategory_radiusInv (provider : PlacesCall → PlacesResponse) (center : Coord)
    (radiusMeters : ℤ) (acc : Accum) (category : String)
    (h : ∀ call ∈ acc.calls, call.radius = radiusMeters) :
    ∀ call ∈ (stepCategory provider center radiusMeters acc category).calls,
      call.radius = radiusMeters := by
  rw [stepCategory]
  cases hm : googleTypesFor category with
  | none => exact h
  | some googleTypes =>
    cases he : googleTypes.isEmpty with
    | true => simpa [he] using h
    | false =>
      simpa [he] using foldl_stepType_radiusInv provider center radiusMeters category
        googleTypes acc h

theorem runCategories_radiusInv (provider : PlacesCall → PlacesResponse) (center : Coord)
    (radiusMeters : ℤ) (cats : List String) :
    ∀ call ∈ (runCategories provider center radiusMeters cats).calls,
      call.radius = radiusMeters := by
  rw [runCategories]
  generalize hinit : (⟨[], 0, []⟩ : Accum) = acc0
  have h0 : ∀ call ∈ acc0.calls, call.radius = radiusMeters := by
    rw [← hinit]
    intro call hc
    exact absurd hc (List.not_mem_nil call)
  clear hinit
  induction cats generalizing acc0 with
  | nil => exact h0
  | cons c rest ih =>
    rw [List.foldl_cons]
    exact ih _ (stepCategory_radiusInv provider center radiusMeters acc0 c h0)

theorem stepType_failed (provider : PlacesCall → PlacesResponse) (center : Coord)
    (radiusMeters : ℤ) (category : String) (acc : Accum) (googleType : String)
    (h : (provider (mkCall center radiusMeters googleType)).ok = false) :
    stepType provider center radiusMeters category acc googleType =
      { acc with calls := acc.calls ++ [mkCall center radiusMeters googleType] } := by
  rw [stepType]
  simp [h]

theorem handler_fallback_some (geocode : String → Option (List Coord))
    (provider : PlacesCall → PlacesResponse) (city state : String) (radiusMiles : ℚ)
    (cats : List String) (coord : Coord)
    (hl : lookupFallback (strTrim (strToLower (city ++ ", " ++ state))) = some coord) :
    handler geocode provider city state radiusMiles cats =
      ⟨.success (searchFrom provider coord city state radiusMiles cats).1, [],
        (searchFrom provider coord city state radiusMiles cats).2⟩ := by
  simp only [handler, hl]

theorem handler_geocode_hit (geocode : String → Option (List Coord))
    (provider : PlacesCall → PlacesResponse) (city state : String) (radiusMiles : ℚ)
    (cats : List String) (coord : Coord) (rest : List Coord)
    (hl : lookupFallback (strTrim (strToLower (city ++ ", " ++ state))) = none)
    (hg : geocode (city ++ ", " ++ state) = some (coord :: rest)) :
    handler geocode provider city state radiusMiles cats =
      ⟨.success (searchFrom provider coord city state radiusMiles cats).1,
        [city ++ ", " ++ state], (searchFrom provider coord city state radiusMiles cats).2⟩ := by
  simp only [handler, hl, hg]

theorem handler_geocode_miss (geocode : String → Option (List Coord))
    (provider : PlacesCall → PlacesResponse) (city state : String) (radiusMiles : ℚ)
    (cats : List String)
    (hl : lookupFallback (strTrim (strToLower (city ++ ", " ++ state))) = none)
    (hg : geocode (city ++ ", " ++ state) = none ∨ geocode (city ++ ", " ++ state) = some []) :
    handler geocode provider city state radiusMiles cats =
      ⟨.locationNotFound (notFoundMessage (city ++ ", " ++ state)),
        [city ++ ", " ++ state], []⟩ := by
  rcases hg with hg | hg <;> simp only [handler, hl, hg]

theorem searchFrom_withoutWebsites (provider : PlacesCall → PlacesResponse) (center : Coord)
    (city state : String) (radiusMiles : ℚ) (cats : List String) :
    (searchFrom provider center city state radiusMiles cats).1.withoutWebsites =
      (searchFrom provider center city state radiusMiles cats).1.businesses.length := rfl

theorem searchFrom_le_totalSearched (provider : PlacesCall → PlacesResponse) (center : Coord)
    (city state : String) (radiusMiles : ℚ) (cats : List String) :
    (searchFrom provider center city state radiusMiles cats).1.withoutWebsites ≤
      (searchFrom provider center city state radiusMiles cats).1.totalSearched := by
  show (uniqueBusinesses (runCategories provider center (jsRound (radiusMiles * 1609))
      cats).allBusinesses).length ≤
    (runCategories provider center (jsRound (radiusMiles * 1609)) cats).totalSearched
  calc (uniqueBusinesses (runCategories provider center (jsRound (radiusMiles * 1609))
          cats).allBusinesses).length
      ≤ (runCategories provider center (jsRound (radiusMiles * 1609))
          cats).allBusinesses.length := by
        rw [uniqueBusinesses_eq_firstOccurrences]
        exact (firstOccurrences_sublist _).length_le
    _ ≤ _ := runCategories_lenInv provider center (jsRound (radiusMiles * 1609)) cats

/-- C1: the Result Filter keeps a raw provider result if and only if it
carries no non-empty website URI AND at least one of the three signals
holds (a service keyword occurs in the lower-cased concatenation of name
and types, or the joined types string includes one of electrician /
plumber / painter / car_repair / establishment / point_of_interest, or
the lower-cased name contains a business-suffix token such as
llc / inc / corp / company / service / services); in particular every
result with a non-empty website URI is discarded regardless of the other
signals. -/
theorem claim_C1_result_filter :
    ∀ place : Place,
      (keepPlace place = true ↔
        ((∀ s, place.websiteUri = some s → s = "") ∧
          (hasServiceKeyword place = true ∨ hasServiceType place = true ∨
            hasBusinessSuffix place = true))) ∧
      (∀ s, place.websiteUri = some s → s ≠ "" → keepPlace place = false) := by
  intro place
  constructor
  · cases hw : place.websiteUri with
    | none =>
      rw [keepPlace, hw]
      simp only [jsTruthy, if_false, Bool.false_eq_true, Bool.or_eq_true]
      constructor
      · intro h
        exact ⟨(fun s hs => nomatch hs), or_assoc.mp h⟩
      · rintro ⟨-, h⟩
        exact or_assoc.mpr h
    | some s =>
      rw [keepPlace, hw]
      by_cases hs : s = ""
      · subst hs
        simp only [jsTruthy, bne_self_eq_false, Bool.false_eq_true, if_false, Bool.or_eq_true]
        constructor
        · intro h
          exact ⟨fun s' hs' => (Option.some.inj hs').symm, or_assoc.mp h⟩
        · rintro ⟨-, h⟩
          exact or_assoc.mpr h
      · have ht : jsTruthy (some s) = true := by simp [jsTruthy, hs]
        rw [ht]
        simp only [if_true, Bool.false_eq_true, false_iff, not_and]
        intro hall
        exact absurd (hall s rfl) hs
  · intro s hs hne
    rw [keepPlace, hs]
    have ht : jsTruthy (some s) = true := by simp [jsTruthy, hne]
    rw [ht, if_pos rfl]

theorem claim_C1_result_filter_witness :
    keepPlace websitePlace = false ∧ keepPlace samplePlace = true :=
  ⟨(claim_C1_result_filter websitePlace).2 "https://joes.example" rfl (by decide),
   (claim_C1_result_filter samplePlace).1.mpr
     ⟨(fun s hs => nomatch hs), Or.inl (by decide)⟩⟩

/-- C2: the Deduplicator returns a sublist that keeps, for each distinct
(name, address) pair, exactly the first occurrence in input order
(it equals the spec-modelled `firstOccurrences`), preserving first-seen
order; it covers every key of the input, and no two businesses of the
output — hence of any response — share an identical (name, address)
pair. -/
theorem claim_C2_deduplicator :
    (∀ l : List Business,
      uniqueBusinesses l = firstOccurrences l ∧
      (uniqueBusinesses l).Sublist l ∧
      (uniqueBusinesses l).Pairwise
        (fun a b => ¬(a.name = b.name ∧ a.address = b.address)) ∧
      (∀ b ∈ l, ∃ c ∈ uniqueBusinesses l, c.name = b.name ∧ c.address = b.address)) ∧
    (∀ (provider : PlacesCall → PlacesResponse) (center : Coord) (city state : String)
        (radiusMiles : ℚ) (cats : List String),
      (searchFrom provider center city state radiusMiles cats).1.businesses.Pairwise
        (fun a b => ¬(a.name = b.name ∧ a.address = b.address))) := by
  constructor
  · intro l
    have he := uniqueBusinesses_eq_firstOccurrences l
    refine ⟨he, ?_, ?_, ?_⟩
    · rw [he]; exact firstOccurrences_sublist l
    · rw [he]
      refine (firstOccurrences_pairwise l).imp ?_
      intro a b hab hcontra
      rw [sameBiz_iff.mpr hcontra] at hab
      exact Bool.true_eq_false.mp hab
    · intro b hb
      obtain ⟨c, hc, hcb⟩ := firstOccurrences_covers l b hb
      rw [← he] at hc
      exact ⟨c, hc, sameBiz_iff.mp hcb⟩
  · intro provider center city state radiusMiles cats
    show (uniqueBusinesses (runCategories provider center (jsRound (radiusMiles * 1609))
        cats).allBusinesses).Pairwise _
    rw [uniqueBusinesses_eq_firstOccurrences]
    refine (firstOccurrences_pairwise _).imp ?_
    intro a b hab hcontra
    rw [sameBiz_iff.mpr hcontra] at hab
    exact Bool.true_eq_false.mp hab

theorem claim_C2_deduplicator_witness :
    uniqueBusinesses [bizA, bizA] = firstOccurrences [bizA, bizA] ∧
    (∃ c ∈ uniqueBusinesses [bizA, bizA], c.name = bizA.name ∧ c.address = bizA.address) :=
  ⟨(claim_C2_deduplicator.1 [bizA, bizA]).1,
   (claim_C2_deduplicator.1 [bizA, bizA]).2.2.2 bizA (List.mem_cons_self _ _)⟩

/-- C3: `totalSearched` in the summary equals the sum, over all issued
provider calls, of the raw result count of each successful call (counted
before the Result Filter runs); a failed call contributes zero. -/
theorem claim_C3_totalSearched :
    ∀ (provider : PlacesCall → PlacesResponse) (center : Coord) (city state : String)
      (radiusMiles : ℚ) (cats : List String),
      (searchFrom provider center city state radiusMiles cats).1.totalSearched =
        (((searchFrom provider center city state radiusMiles cats).2).map
          (fun call => if (provider call).ok = true
            then ((provider call).places.map List.length).getD 0 else 0)).sum := by
  intro provider center city state radiusMiles cats
  exact runCategories_totalInv provider center (jsRound (radiusMiles * 1609)) cats

/-- C4: the static table maps the ten documented city/state keys to
exactly the hardcoded coordinates, and whenever the normalized
"city, state" key hits the table the handler uses exactly the table's
coordinates and issues no geocoding call. -/
theorem claim_C4_static_table :
    (lookupFallback "detroit, mi" = some ⟨42.3314, -83.0458⟩ ∧
     lookupFallback "chicago, il" = some ⟨41.8781, -87.6298⟩ ∧
     lookupFallback "new york, ny" = some ⟨40.7128, -74.0060⟩ ∧
     lookupFallback "los angeles, ca" = some ⟨34.0522, -118.2437⟩ ∧
     lookupFallback "miami, fl" = some ⟨25.7617, -80.1918⟩ ∧
     lookupFallback "traverse city, mi" = some ⟨44.7631, -85.6206⟩ ∧
     lookupFallback "cadillac, mi" = some ⟨44.2519, -85.4012⟩ ∧
     lookupFallback "grand rapids, mi" = some ⟨42.9634, -85.6681⟩ ∧
     lookupFallback "kalamazoo, mi" = some ⟨42.2917, -85.5872⟩ ∧
     lookupFallback "lansing, mi" = some ⟨42.7325, -84.5555⟩) ∧
    (∀ (geocode : String → Option (List Coord)) (provider : PlacesCall → PlacesResponse)
        (city state : String) (radiusMiles : ℚ) (cats : List String) (coord : Coord),
      lookupFallback (strTrim (strToLower (city ++ ", " ++ state))) = some coord →
      handler geocode provider city state radiusMiles cats =
        ⟨.success (searchFrom provider coord city state radiusMiles cats).1, [],
          (searchFrom provider coord city state radiusMiles cats).2⟩) :=
  ⟨⟨rfl, rfl, rfl, rfl, rfl, rfl, rfl, rfl, rfl, rfl⟩, handler_fallback_some⟩

theorem claim_C4_static_table_witness :
    handler noGeocode constProvider "Detroit" "MI" 10 ["electrician"] =
      ⟨.success (searchFrom constProvider ⟨42.3314, -83.0458⟩ "Detroit" "MI" 10
          ["electrician"]).1, [],
        (searchFrom constProvider ⟨42.3314, -83.0458⟩ "Detroit" "MI" 10 ["electrician"]).2⟩ :=
  claim_C4_static_table.2 noGeocode constProvider "Detroit" "MI" 10 ["electrician"]
    ⟨42.3314, -83.0458⟩ rfl

theorem notFoundMessage_names_location (f : String) :
    jsIncludes (notFoundMessage f) f = true := by
  rw [jsIncludes, decide_eq_true_eq, notFoundMessage, String.data_append, String.data_append]
  exact ⟨"Location \"".data,
    "\" not found. Please try: Detroit, MI, Chicago, IL, New York, NY, Los Angeles, CA, Miami, FL, or Traverse City, MI".data,
    by rw [List.append_assoc]⟩

theorem notFoundMessage_lists_example (f ex : String)
    (hex : jsIncludes "\" not found. Please try: Detroit, MI, Chicago, IL, New York, NY, Los Angeles, CA, Miami, FL, or Traverse City, MI" ex = true) :
    jsIncludes (notFoundMessage f) ex = true := by
  rw [jsIncludes, decide_eq_true_eq, notFoundMessage, String.data_append, String.data_append]
  rw [jsIncludes, decide_eq_true_eq] at hex
  exact hex.trans ⟨"Location \"".data ++ f.data, [], by simp⟩

set_option maxRecDepth 16384 in
/-- C5: when the normalized key misses the static table, exactly one
geocoding call is made; the first returned candidate's coordinates are
used; and when geocoding yields no results the handler returns the
HTTP 400 location-not-found outcome whose message names the unresolved
location and lists example valid locations, with no places calls
issued. -/
theorem claim_C5_geocoding :
    ∀ (geocode : String → Option (List Coord)) (provider : PlacesCall → PlacesResponse)
      (city state : String) (radiusMiles : ℚ) (cats : List String),
      lookupFallback (strTrim (strToLower (city ++ ", " ++ state))) = none →
      (handler geocode provider city state radiusMiles cats).geocodeCalls =
          [city ++ ", " ++ state] ∧
      (∀ (coord : Coord) (rest : List Coord),
        geocode (city ++ ", " ++ state) = some (coord :: rest) →
        handler geocode provider city state radiusMiles cats =
          ⟨.success (searchFrom provider coord city state radiusMiles cats).1,
            [city ++ ", " ++ state],
            (searchFrom provider coord city state radiusMiles cats).2⟩) ∧
      ((geocode (city ++ ", " ++ state) = none ∨ geocode (city ++ ", " ++ state) = some []) →
        handler geocode provider city state radiusMiles cats =
          ⟨.locationNotFound (notFoundMessage (city ++ ", " ++ state)),
            [city ++ ", " ++ state], []⟩ ∧
        (handler geocode provider city state radiusMiles cats).outcome.status = 400 ∧
        (handler geocode provider city state radiusMiles cats).placesCalls = [] ∧
        jsIncludes (notFoundMessage (city ++ ", " ++ state)) (city ++ ", " ++ state) = true ∧
        jsIncludes (notFoundMessage (city ++ ", " ++ state)) "Detroit, MI" = true ∧
        jsIncludes (notFoundMessage (city ++ ", " ++ state)) "Traverse City, MI" = true) := by
  intro geocode provider city state radiusMiles cats hl
  refine ⟨?_, ?_, ?_⟩
  · cases hg : geocode (city ++ ", " ++ state) with
    | none => rw [handler_geocode_miss geocode provider city state radiusMiles cats hl (Or.inl hg)]
    | some l =>
      cases l with
      | nil => rw [handler_geocode_miss geocode provider city state radiusMiles cats hl (Or.inr hg)]
      | cons coord rest =>
        rw [handler_geocode_hit geocode provider city state radiusMiles cats coord rest hl hg]
  · intro coord rest hg
    exact handler_geocode_hit _ _ _ _ _ _ coord rest hl hg
  · intro hg
    have hm := handler_geocode_miss geocode provider city state radiusMiles cats hl hg
    exact ⟨hm, by rw [hm]; rfl, by rw [hm], notFoundMessage_names_location _,
      notFoundMessage_lists_example _ _ (by decide),
      notFoundMessage_lists_example _ _ (by decide)⟩

theorem claim_C5_geocoding_witness :
    (handler noGeocode constProvider "Nowhereville" "ZZ" 10 ["electrician"]).geocodeCalls =
      ["Nowhereville" ++ ", " ++ "ZZ"] ∧
    handler noGeocode constProvider "Nowhereville" "ZZ" 10 ["electrician"] =
      ⟨.locationNotFound (notFoundMessage ("Nowhereville" ++ ", " ++ "ZZ")),
        ["Nowhereville" ++ ", " ++ "ZZ"], []⟩ :=
  ⟨(claim_C5_geocoding noGeocode constProvider "Nowhereville" "ZZ" 10 ["electrician"] rfl).1,
   ((claim_C5_geocoding noGeocode constProvider "Nowhereville" "ZZ" 10 ["electrician"]
      rfl).2.2 (Or.inl rfl)).1⟩

/-- C6: an individual places call that returns a non-success status
contributes nothing to the business list or to `totalSearched` (the loop
records the call and continues), and whether the overall request ends in
the HTTP 200 outcome does not depend on the places provider at all. -/
theorem claim_C6_failed_call :
    (∀ (provider : PlacesCall → PlacesResponse) (center : Coord) (radiusMeters : ℤ)
        (category : String) (acc : Accum) (googleType : String),
      (provider (mkCall center radiusMeters googleType)).ok = false →
      stepType provider center radiusMeters category acc googleType =
        { acc with calls := acc.calls ++ [mkCall center radiusMeters googleType] }) ∧
    (∀ (geocode : String → Option (List Coord))
        (provider provider' : PlacesCall → PlacesResponse)
        (city state : String) (radiusMiles : ℚ) (cats : List String),
      (handler geocode provider city state radiusMiles cats).outcome.isSuccess =
        (handler geocode provider' city state radiusMiles cats).outcome.isSuccess) := by
  constructor
  · exact stepType_failed
  · intro geocode provider provider' city state radiusMiles cats
    cases hl : lookupFallback (strTrim (strToLower (city ++ ", " ++ state))) with
    | some coord =>
      rw [handler_fallback_some geocode provider city state radiusMiles cats coord hl,
        handler_fallback_some geocode provider' city state radiusMiles cats coord hl]
      rfl
    | none =>
      cases hg : geocode (city ++ ", " ++ state) with
      | none =>
        rw [handler_geocode_miss geocode provider city state radiusMiles cats hl (Or.inl hg),
          handler_geocode_miss geocode provider' city state radiusMiles cats hl (Or.inl hg)]
      | some l =>
        cases l with
        | nil =>
          rw [handler_geocode_miss geocode provider city state radiusMiles cats hl (Or.inr hg),
            handler_geocode_miss geocode provider' city state radiusMiles cats hl (Or.inr hg)]
        | cons coord rest =>
          rw [handler_geocode_hit geocode provider city state radiusMiles cats coord rest hl hg,
            handler_geocode_hit geocode provider' city state radiusMiles cats coord rest hl hg]
          rfl

theorem claim_C6_failed_call_witness :
    stepType failProvider ⟨42.3314, -83.0458⟩ 16090 "electrician" Accum.init "electrician" =
      { Accum.init with calls := [mkCall ⟨42.3314, -83.0458⟩ 16090 "electrician"] } ∧
    (handler noGeocode failProvider "Detroit" "MI" 10 ["electrician"]).outcome.isSuccess =
      (handler noGeocode constProvider "Detroit" "MI" 10 ["electrician"]).outcome.isSuccess :=
  ⟨claim_C6_failed_call.1 failProvider ⟨42.3314, -83.0458⟩ 16090 "electrician" Accum.init
      "electrician" rfl,
   claim_C6_failed_call.2 noGeocode failProvider constProvider "Detroit" "MI" 10 ["electrician"]⟩

/-- C7: a category string absent from the category-to-provider-type
mapping makes the loop body a no-op (zero provider calls, no error), and
the whole search over any category list containing it equals the search
with that category removed. -/
theorem claim_C7_unknown_category :
    ∀ (provider : PlacesCall → PlacesResponse) (center : Coord) (radiusMeters : ℤ)
      (category : String),
      googleTypesFor category = none →
      (∀ acc : Accum, stepCategory provider center radiusMeters acc category = acc) ∧
      (∀ pre post : List String,
        runCategories provider center radiusMeters (pre ++ category :: post) =
          runCategories provider center radiusMeters (pre ++ post)) := by
  intro provider center radiusMeters category hm
  have hstep : ∀ acc : Accum, stepCategory provider center radiusMeters acc category = acc := by
    intro acc
    rw [stepCategory, hm]
  refine ⟨hstep, ?_⟩
  intro pre post
  rw [show category :: post = [category] ++ post from rfl, runCategories_append,
    runCategories_append, runCategories_append, runCategories_singleton, hstep,
    Accum.init_merge]

theorem claim_C7_unknown_category_witness :
    stepCategory constProvider ⟨42.3314, -83.0458⟩ 16090 Accum.init "bakery" = Accum.init ∧
    runCategories constProvider ⟨42.3314, -83.0458⟩ 16090
        (["electrician"] ++ "bakery" :: ["plumber"]) =
      runCategories constProvider ⟨42.3314, -83.0458⟩ 16090 (["electrician"] ++ ["plumber"]) :=
  ⟨(claim_C7_unknown_category constProvider ⟨42.3314, -83.0458⟩ 16090 "bakery" rfl).1 Accum.init,
   (claim_C7_unknown_category constProvider ⟨42.3314, -83.0458⟩ 16090 "bakery" rfl).2
     ["electrician"] ["plumber"]⟩

/-- C8 counterexample: a request listing "electrician" twice does NOT
produce the same response as listing it once — with a provider returning
one place per call, the duplicate run reports totalSearched = 2 against
1, so the claim as stated is false. -/
theorem claim_C8_counterexample :
    handler noGeocode constProvider "Detroit" "MI" 10 ["electrician", "electrician"] ≠
      handler noGeocode constProvider "Detroit" "MI" 10 ["electrician"] := by
  intro h
  have h2 := congrArg runTotalSearched h
  rw [show runTotalSearched (handler noGeocode constProvider "Detroit" "MI" 10
      ["electrician", "electrician"]) = 2 from by with_unfolding_all rfl,
    show runTotalSearched (handler noGeocode constProvider "Detroit" "MI" 10
      ["electrician"]) = 1 from by with_unfolding_all rfl] at h2
  exact absurd h2 (by decide)

/-- C8 (amended): a duplicated category re-issues its provider calls and
counts their results again (the run decomposes with the category's
contribution merged in twice), but the deduplicated businesses list and
`withoutWebsites` are unchanged from the single-occurrence request. -/
theorem claim_C8_duplicate_category :
    ∀ (provider : PlacesCall → PlacesResponse) (center : Coord) (city state : String)
      (radiusMiles : ℚ) (pre post : List String) (c : String),
      (searchFrom provider center city state radiusMiles (pre ++ c :: c :: post)).1.businesses =
        (searchFrom provider center city state radiusMiles (pre ++ c :: post)).1.businesses ∧
      (searchFrom provider center city state radiusMiles
          (pre ++ c :: c :: post)).1.withoutWebsites =
        (searchFrom provider center city state radiusMiles (pre ++ c :: post)).1.withoutWebsites ∧
      runCategories provider center (jsRound (radiusMiles * 1609)) (pre ++ c :: c :: post) =
        (runCategories provider center (jsRound (radiusMiles * 1609)) pre).merge
          ((runCategories provider center (jsRound (radiusMiles * 1609)) [c]).merge
            ((runCategories provider center (jsRound (radiusMiles * 1609)) [c]).merge
              (runCategories provider center (jsRound (radiusMiles * 1609)) post))) ∧
      runCategories provider center (jsRound (radiusMiles * 1609)) (pre ++ c :: post) =
        (runCategories provider center (jsRound (radiusMiles * 1609)) pre).merge
          ((runCategories provider center (jsRound (radiusMiles * 1609)) [c]).merge
            (runCategories provider center (jsRound (radiusMiles * 1609)) post)) := by
  intro provider center city state radiusMiles pre post c
  have hdup : runCategories provider center (jsRound (radiusMiles * 1609))
      (pre ++ c :: c :: post) =
      (runCategories provider center (jsRound (radiusMiles * 1609)) pre).merge
        ((runCategories provider center (jsRound (radiusMiles * 1609)) [c]).merge
          ((runCategories provider center (jsRound (radiusMiles * 1609)) [c]).merge
            (runCategories provider center (jsRound (radiusMiles * 1609)) post))) := by
    rw [show c :: c :: post = [c] ++ ([c] ++ post) from rfl, runCategories_append,
      runCategories_append, runCategories_append]
  have hsingle : runCategories provider center (jsRound (radiusMiles * 1609))
      (pre ++ c :: post) =
      (runCategories provider center (jsRound (radiusMiles * 1609)) pre).merge
        ((runCategories provider center (jsRound (radiusMiles * 1609)) [c]).merge
          (runCategories provider center (jsRound (radiusMiles * 1609)) post)) := by
    rw [show c :: post = [c] ++ post from rfl, runCategories_append, runCategories_append]
  have hbiz : (searchFrom provider center city state radiusMiles
      (pre ++ c :: c :: post)).1.businesses =
      (searchFrom provider center city state radiusMiles (pre ++ c :: post)).1.businesses := by
    show uniqueBusinesses (runCategories provider center (jsRound (radiusMiles * 1609))
        (pre ++ c :: c :: post)).allBusinesses =
      uniqueBusinesses (runCategories provider center (jsRound (radiusMiles * 1609))
        (pre ++ c :: post)).allBusinesses
    rw [hdup, hsingle, uniqueBusinesses_eq_firstOccurrences,
      uniqueBusinesses_eq_firstOccurrences]
    exact firstOccurrences_dup _ _ _
  refine ⟨hbiz, ?_, hdup, hsingle⟩
  rw [searchFrom_withoutWebsites, searchFrom_withoutWebsites, hbiz]

/-- C9: every places call carries radius `round(radiusMiles * 1609)`
meters (stated both with the source's `Math.round` model and Mathlib's
`round`), and a radiusMiles of 10 converts to exactly 16090. -/
theorem claim_C9_radius :
    (∀ (provider : PlacesCall → PlacesResponse) (center : Coord) (city state : String)
        (radiusMiles : ℚ) (cats : List String),
      ∀ call ∈ (searchFrom provider center city state radiusMiles cats).2,
        call.radius = jsRound (radiusMiles * 1609) ∧
        call.radius = round (radiusMiles * 1609)) ∧
    jsRound ((10 : ℚ) * 1609) = 16090 := by
  constructor
  · intro provider center city state radiusMiles cats call hc
    have h := runCategories_radiusInv provider center (jsRound (radiusMiles * 1609)) cats call hc
    exact ⟨h, h.trans (jsRound_eq_round _)⟩
  · with_unfolding_all rfl

theorem claim_C9_radius_witness :
    (mkCall ⟨42.3314, -83.0458⟩ (jsRound ((10 : ℚ) * 1609)) "electrician").radius =
      jsRound ((10 : ℚ) * 1609) ∧
    jsRound ((10 : ℚ) * 1609) = 16090 :=
  ⟨(claim_C9_radius.1 constProvider ⟨42.3314, -83.0458⟩ "Detroit" "MI" 10 ["electrician"]
      (mkCall ⟨42.3314, -83.0458⟩ (jsRound ((10 : ℚ) * 1609)) "electrician")
      (List.mem_singleton.mpr rfl)).1,
   claim_C9_radius.2⟩

/-- C10: in every HTTP 200 response, `summary.withoutWebsites` equals
the length of the businesses array and is at most
`summary.totalSearched`. -/
theorem claim_C10_summary_consistency :
    ∀ (geocode : String → Option (List Coord)) (provider : PlacesCall → PlacesResponse)
      (city state : String) (radiusMiles : ℚ) (cats : List String) (resp : SearchResponse),
      (handler geocode provider city state radiusMiles cats).outcome = .success resp →
      resp.withoutWebsites = resp.businesses.length ∧
      resp.withoutWebsites ≤ resp.totalSearched := by
  intro geocode provider city state radiusMiles cats resp h
  cases hl : lookupFallback (strTrim (strToLower (city ++ ", " ++ state))) with
  | some coord =>
    rw [handler_fallback_some geocode provider city state radiusMiles cats coord hl] at h
    have h' : HandlerOutcome.success (searchFrom provider coord city state radiusMiles
        cats).1 = .success resp := h
    injection h' with h''
    rw [← h'']
    exact ⟨searchFrom_withoutWebsites provider coord city state radiusMiles cats,
      searchFrom_le_totalSearched provider coord city state radiusMiles cats⟩
  | none =>
    cases hg : geocode (city ++ ", " ++ state) with
    | none =>
      rw [handler_geocode_miss geocode provider city state radiusMiles cats hl (Or.inl hg)] at h
      exact HandlerOutcome.noConfusion h
    | some l =>
      cases l with
      | nil =>
        rw [handler_geocode_miss geocode provider city state radiusMiles cats hl
          (Or.inr hg)] at h
        exact HandlerOutcome.noConfusion h
      | cons coord rest =>
        rw [handler_geocode_hit geocode provider city state radiusMiles cats coord rest
          hl hg] at h
        have h' : HandlerOutcome.success (searchFrom provider coord city state radiusMiles
            cats).1 = .success resp := h
        injection h' with h''
        rw [← h'']
        exact ⟨searchFrom_withoutWebsites provider coord city state radiusMiles cats,
          searchFrom_le_totalSearched provider coord city state radiusMiles cats⟩

theorem claim_C10_summary_consistency_witness :
    (searchFrom constProvider ⟨42.3314, -83.0458⟩ "Detroit" "MI" 10
        ["electrician"]).1.withoutWebsites =
      (searchFrom constProvider ⟨42.3314, -83.0458⟩ "Detroit" "MI" 10
        ["electrician"]).1.businesses.length ∧
    (searchFrom constProvider ⟨42.3314, -83.0458⟩ "Detroit" "MI" 10
        ["electrician"]).1.withoutWebsites ≤
      (searchFrom constProvider ⟨42.3314, -83.0458⟩ "Detroit" "MI" 10
        ["electrician"]).1.totalSearched :=
  claim_C10_summary_consistency noGeocode constProvider "Detroit" "MI" 10 ["electrician"]
    (searchFrom constProvider ⟨42.3314, -83.0458⟩ "Detroit" "MI" 10 ["electrician"]).1 rfl


end LeadScraper
